import Mathlib

/-!
# Verification of the Booner_Ollama task-orchestration core

Shallow embedding of the task-handling parts of `src/api_server.py`,
`src/agents/game_server_agent.py`, `src/agents/infra_agent.py` and
`src/utils/config.py`, together with theorems settling the specification
claims about task state, the task store, validation, error handling,
notification isolation and API-key checking.

Python dictionaries are modelled as association lists, JSON-like values as
an inductive `JsonVal`, a raised Python exception as the `.error` branch of
`Except String`, and the one genuinely external call (the LangChain/Ollama
LLM invocation in the `llm_generate` branch) as a function parameter in
`Env`.  Everything else in the relevant code paths is pure and is embedded
directly from the source.
-/

namespace BoonerOllama

/-- The task status strings used by `api_server.py`:
`"queued"` (set at creation in each endpoint), `"running"`, `"completed"`,
`"failed"` (set inside `run_task`). -/
inductive TaskStatus where
  | queued
  | running
  | completed
  | failed
  deriving DecidableEq, Repr

/-- A JSON-like Python value (strings, ints, bools, None, lists, dicts). -/
inductive JsonVal where
  | str (s : String)
  | int (n : Int)
  | bool (b : Bool)
  | null
  | arr (xs : List JsonVal)
  | obj (fields : List (String × JsonVal))
  deriving Repr

/-- Look a key up in a modelled Python dict (first binding wins, as in a
Python dict where keys are unique). -/
def jsonLookup (fields : List (String × JsonVal)) (k : String) : Option JsonVal :=
  match fields with
  | [] => none
  | (k2, v) :: rest => if k2 = k then some v else jsonLookup rest k

/-- The per-task record stored in the `active_tasks` dict: a `"status"`
entry always present, plus optional `"result"` and `"error"` entries
(`active_tasks[task_id] = {"status": "queued"}` at creation;
`run_task` later assigns `["status"]`, `["result"]`, `["error"]`). -/
structure TaskRecord where
  status : TaskStatus
  result : Option JsonVal := none
  error : Option String := none
  deriving Repr

/-- The record each endpoint inserts: `{"status": "queued"}`. -/
def newTaskRecord : TaskRecord := { status := .queued }

/-- The global `active_tasks` dict (`api_server.py` line 34): task id to
record. -/
def Store := List (String × TaskRecord)

/-- Dict read `active_tasks[task_id]`. -/
def storeGet (st : Store) (id : String) : Option TaskRecord :=
  match st with
  | [] => none
  | (k, r) :: rest => if k = id then some r else storeGet rest id

/-- Dict write `active_tasks[task_id] = r`: replaces the binding if the key
exists, otherwise appends it. -/
def storeSet (st : Store) (id : String) (r : TaskRecord) : Store :=
  match st with
  | [] => [(id, r)]
  | (k, v) :: rest => if k = id then (k, r) :: rest else (k, v) :: storeSet rest id r

/-- The code's only "transition" operation on a task record,
`active_tasks[task_id]["status"] = s` (e.g. `api_server.py` line 146): an
unconditional field write with no expected-state comparison and no failure
path.  When the key is absent nothing is written (in the program the key
always exists, having been inserted by the endpoint before `run_task` is
scheduled). -/
def storeSetStatus (st : Store) (id : String) (s : TaskStatus) : Store :=
  match storeGet st id with
  | some r => storeSet st id { r with status := s }
  | none => st

/-! ## `GameServerAgent` (src/agents/game_server_agent.py) -/

/-- `GameServerConfig` (game_server_agent.py lines 9-17). -/
structure GameServerConfig where
  game_type : String
  server_name : String
  port : Int
  memory : String
  cpu_limit : Option String := none
  storage : Option String := none
  additional_settings : Option (List (String × JsonVal)) := none
  deriving Repr

/-- Python `dict.update`: existing keys are overwritten in place, new keys
are appended in order. -/
def pyDictUpdate (base upd : List (String × JsonVal)) : List (String × JsonVal) :=
  base.map (fun kv => match jsonLookup upd kv.1 with
    | some w => (kv.1, w)
    | none => kv)
  ++ upd.filter (fun kv => (jsonLookup base kv.1).isNone)

/-- Python truthiness of an optional dict (`if config.additional_settings:`):
`None` and the empty dict are falsy. -/
def pyTruthyDict : Option (List (String × JsonVal)) → Bool
  | some (_ :: _) => true
  | _ => false

/-- `GameServerAgent.deploy_minecraft_server` (lines 68-119): builds the
container/firewall configuration dicts and returns the success dict.  Pure;
never raises. -/
def deploy_minecraft_server (config : GameServerConfig) : JsonVal :=
  let baseEnvironment : List (String × JsonVal) :=
    [("EULA", .str "TRUE"), ("MEMORY", .str config.memory),
     ("SERVER_NAME", .str config.server_name)]
  let environment :=
    if pyTruthyDict config.additional_settings then
      pyDictUpdate baseEnvironment (config.additional_settings.getD [])
    else baseEnvironment
  let minecraft_config : JsonVal := .obj
    [("container_name", .str ("minecraft-" ++ config.server_name)),
     ("image", .str "itzg/minecraft-server"),
     ("ports", .arr [.str (toString config.port ++ ":25565")]),
     ("environment", .obj environment),
     ("volumes", .arr [.str ("minecraft-" ++ config.server_name ++ "-data:/data")])]
  .obj
    [("status", .str "success"),
     ("server_id", .str ("minecraft-" ++ config.server_name)),
     ("connection_info", .str ("Connect to your server at your-public-ip:" ++ toString config.port)),
     ("configuration", minecraft_config)]

/-- Python `d.get(k, default)` on a modelled dict. -/
def pyGetD (d : List (String × JsonVal)) (k : String) (default : JsonVal) : JsonVal :=
  match jsonLookup d k with
  | some v => v
  | none => default

/-- `GameServerAgent.deploy_cs2_server` (lines 121-158).  The body calls
`config.additional_settings.get(...)`; when `additional_settings` is `None`
that attribute access raises `AttributeError`, so the result is fallible. -/
def deploy_cs2_server (config : GameServerConfig) : Except String JsonVal :=
  match config.additional_settings with
  | none => .error "'NoneType' object has no attribute 'get'"
  | some settings =>
    let cs2_config : JsonVal := .obj
      [("container_name", .str ("cs2-" ++ config.server_name)),
       ("image", .str "cm2network/cs2"),
       ("ports", .arr
         [.str (toString config.port ++ ":27015/tcp"),
          .str (toString config.port ++ ":27015/udp"),
          .str (toString (config.port + 1) ++ ":27020/udp")]),
       ("environment", .obj
         [("SERVER_HOSTNAME", .str config.server_name),
          ("SERVER_PASSWORD", pyGetD settings "password" (.str "")),
          ("RCON_PASSWORD", pyGetD settings "rcon_password" (.str "changeme"))]),
       ("volumes", .arr [.str ("cs2-" ++ config.server_name ++ "-data:/home/steam/cs2-dedicated")])]
    .ok (.obj
      [("status", .str "success"),
       ("server_id", .str ("cs2-" ++ config.server_name)),
       ("connection_info", .str ("Connect to your server at your-public-ip:" ++ toString config.port)),
       ("configuration", cs2_config)])

/-- `GameServerAgent.deploy_valheim_server` (lines 160-197); like the CS2
variant it dereferences `config.additional_settings`, raising
`AttributeError` when that field is `None`. -/
def deploy_valheim_server (config : GameServerConfig) : Except String JsonVal :=
  match config.additional_settings with
  | none => .error "'NoneType' object has no attribute 'get'"
  | some settings =>
    let valheim_config : JsonVal := .obj
      [("container_name", .str ("valheim-" ++ config.server_name)),
       ("image", .str "lloesche/valheim-server"),
       ("ports", .arr
         [.str (toString config.port ++ ":2456/udp"),
          .str (toString (config.port + 1) ++ ":2457/udp"),
          .str (toString (config.port + 2) ++ ":2458/udp")]),
       ("environment", .obj
         [("SERVER_NAME", .str config.server_name),
          ("WORLD_NAME", pyGetD settings "world_name" (.str "Dedicated")),
          ("SERVER_PASS", pyGetD settings "password" (.str "changeme"))]),
       ("volumes", .arr [.str ("valheim-" ++ config.server_name ++ "-data:/opt/valheim")])]
    .ok (.obj
      [("status", .str "success"),
       ("server_id", .str ("valheim-" ++ config.server_name)),
       ("connection_info", .str ("Connect to your server at your-public-ip:" ++ toString config.port)),
       ("configuration", valheim_config)])

/-- ASCII lowercasing of one character (uppercase letters are shifted by
32, everything else is unchanged). -/
def asciiLowerChar (c : Char) : Char :=
  if 65 ≤ c.toNat ∧ c.toNat ≤ 90 then Char.ofNat (c.toNat + 32) else c

/-- Python `str.lower()` (ASCII range), structurally recursive so concrete
applications reduce definitionally. -/
def pyLower (s : String) : String := ⟨s.data.map asciiLowerChar⟩

/-- `GameServerAgent.deploy_game_server` (lines 199-219): dispatches on the
lower-cased game type.  For an unsupported game type it RETURNS an error
dict (`{"status": "error", "message": ...}`) rather than raising. -/
def deploy_game_server (config : GameServerConfig) : Except String JsonVal :=
  if pyLower config.game_type = "minecraft" then
    .ok (deploy_minecraft_server config)
  else if pyLower config.game_type = "cs2" then
    deploy_cs2_server config
  else if pyLower config.game_type = "valheim" then
    deploy_valheim_server config
  else
    .ok (.obj
      [("status", .str "error"),
       ("message", .str ("Unsupported game type: " ++ config.game_type))])

/-! ## `InfrastructureAgent` (src/agents/infra_agent.py) -/

/-- `OPNSenseAction` (infra_agent.py lines 7-11). -/
structure OPNSenseAction where
  action_type : String
  resource_type : String
  parameters : List (String × JsonVal)
  deriving Repr

/-- `InfrastructureAgent.execute_opnsense_action` (lines 60-78): a pure mock
that prints and returns a fixed success dict; no external call is made. -/
def execute_opnsense_action (action : OPNSenseAction) : JsonVal :=
  .obj
    [("status", .str "success"),
     ("message", .str ("Action " ++ action.action_type ++ " completed"))]

/-! ## `run_task` (api_server.py lines 144-232)

`run_task` is a background coroutine mutating `active_tasks[task_id]`.  We
embed it as a pure function producing, in program order, the list of field
assignments it performs on its task's record, together with the list of
agent-call attempts it makes, and the exception (if any) escaping the `try`
body into the `except` handler.  The only external effect in the embedded
branches is `chain.invoke` of the LangChain/Ollama chain, abstracted as
`Env.llmInvoke`. -/

/-- The external LLM backend: `chain.invoke({"input": ...})`, which returns
the generated string or raises. -/
structure Env where
  llmInvoke : String → Except String String

/-- One field assignment on `active_tasks[task_id]` performed by `run_task`. -/
inductive StoreEvent where
  | setStatus (s : TaskStatus)
  | setResult (v : JsonVal)
  | setError (e : String)
  deriving Repr

/-- An attempted agent/driver invocation inside `run_task`. -/
inductive AgentCall where
  | llmChainInvoke (input : String)
  | deployGameServerCall (config : GameServerConfig)
  | deployActionAttempt (game_type server_name : String)
  | stopActionAttempt (game_type server_name : String)
  | infraExecute (action : OPNSenseAction)
  deriving Repr

/-- The `task_type`/kwargs pairs with which the endpoints schedule
`run_task`; the last constructor models any other `task_type` string,
hitting the `else: raise ValueError(...)` branch. -/
inductive TaskSpec where
  | llm_generate (prompt : String) (system : Option String)
  | game_server_deploy (game_type server_name : String) (port : Int)
      (memory : String) (cpu_limit storage : Option String)
      (additional_settings : Option (List (String × JsonVal)))
  | game_server_action (game_type server_name action : String)
  | infrastructure_action (action_type resource_type : String)
      (parameters : List (String × JsonVal))
  | unknownTask (task_type : String)

/-- Python string interpolation of a nullable value: `"{}".format(None)`
renders as `"None"`.  (`kwargs.get("system", default)` returns the stored
`None`, not the default, because the endpoints always pass the key.) -/
def pyShowOptStr : Option String → String
  | some s => s
  | none => "None"

/-- The `prompt_template.format(...)` of the `llm_generate` branch
(lines 150-160). -/
def formatted_prompt (system : Option String) (prompt : String) : String :=
  "\n            " ++ pyShowOptStr system ++
  "\n            \n            User: " ++ prompt ++ "\n            Assistant:\n            "

/-- `str(e)` of the `TypeError` raised by
`deploy_game_server(game_type, None, server_name)` (line 197): the method
accepts a single `config` argument, so the call itself fails before any
body runs. -/
def deployActionTypeError : String :=
  "GameServerAgent.deploy_game_server() takes 2 positional arguments but 4 were given"

/-- `str(e)` of the `AttributeError` raised by accessing
`game_server_agent.stop_game_server` (lines 199, 201): no such method
exists on `GameServerAgent`. -/
def stopActionAttributeError : String :=
  "'GameServerAgent' object has no attribute 'stop_game_server'"

/-- The stub result of the `status` action (line 205). -/
def statusStubResult : JsonVal :=
  .obj [("status", .str "unknown"),
        ("message", .str "Status check not implemented yet")]

/-- The `try` body of `run_task`: the record assignments and call attempts
made, in order, and the exception (as `str(e)`) escaping to the `except`
handler, if any.  Every branch begins with the
`active_tasks[task_id]["status"] = "running"` assignment of line 146. -/
def run_task_body (env : Env) (spec : TaskSpec) :
    List StoreEvent × List AgentCall × Option String :=
  match spec with
  | .llm_generate prompt system =>
    let input := formatted_prompt system prompt
    (match env.llmInvoke input with
     | .ok result =>
       ([.setStatus .running, .setStatus .completed,
         .setResult (.obj [("response", .str result)])],
        [.llmChainInvoke input], none)
     | .error e =>
       ([.setStatus .running], [.llmChainInvoke input], some e))
  | .game_server_deploy game_type server_name port memory cpu_limit storage additional_settings =>
    let config : GameServerConfig :=
      { game_type := game_type, server_name := server_name, port := port,
        memory := memory, cpu_limit := cpu_limit, storage := storage,
        additional_settings := additional_settings }
    (match deploy_game_server config with
     | .ok result =>
       ([.setStatus .running, .setStatus .completed, .setResult result],
        [.deployGameServerCall config], none)
     | .error e =>
       ([.setStatus .running], [.deployGameServerCall config], some e))
  | .game_server_action game_type server_name action =>
    if action = "start" then
      ([.setStatus .running], [.deployActionAttempt game_type server_name],
       some deployActionTypeError)
    else if action = "stop" then
      ([.setStatus .running], [.stopActionAttempt game_type server_name],
       some stopActionAttributeError)
    else if action = "restart" then
      ([.setStatus .running], [.stopActionAttempt game_type server_name],
       some stopActionAttributeError)
    else if action = "status" then
      ([.setStatus .running, .setStatus .completed, .setResult statusStubResult],
       [], none)
    else
      ([.setStatus .running], [], some ("Unknown action: " ++ action))
  | .infrastructure_action action_type resource_type parameters =>
    let action : OPNSenseAction :=
      { action_type := action_type, resource_type := resource_type,
        parameters := parameters }
    ([.setStatus .running, .setStatus .completed,
      .setResult (execute_opnsense_action action)],
     [.infraExecute action], none)
  | .unknownTask task_type =>
    ([.setStatus .running], [], some ("Unknown task type: " ++ task_type))

/-- `run_task` including its `except` handler (lines 229-232), which turns
any raised exception into the `"failed"` status and the `error` field. -/
def run_task (env : Env) (spec : TaskSpec) : List StoreEvent × List AgentCall :=
  match run_task_body env spec with
  | (events, calls, none) => (events, calls)
  | (events, calls, some e) =>
    (events ++ [.setStatus .failed, .setError e], calls)

/-- Apply one recorded assignment to a task record. -/
def applyEvent (r : TaskRecord) : StoreEvent → TaskRecord
  | .setStatus s => { r with status := s }
  | .setResult v => { r with result := some v }
  | .setError e => { r with error := some e }

/-- The task's record after its single `run_task` execution, starting from
the `{"status": "queued"}` record every endpoint inserts. -/
def finalRecord (env : Env) (spec : TaskSpec) : TaskRecord :=
  (run_task env spec).1.foldl applyEvent newTaskRecord

/-- The successive values taken by the task's `status` field over its
lifetime: `"queued"` at creation, then each status assignment `run_task`
performs, in order. -/
def statusTrace (env : Env) (spec : TaskSpec) : List TaskStatus :=
  .queued :: (run_task env spec).1.filterMap
    (fun e => match e with | .setStatus s => some s | _ => none)

/-- The agent-call attempts `run_task` makes. -/
def callTrace (env : Env) (spec : TaskSpec) : List AgentCall :=
  (run_task env spec).2

/-! ## Request validation and the HTTP endpoints (api_server.py) -/

/-- `GameServerDeployRequest` (api_server.py lines 49-56), field for field
identical to `GameServerConfig`. -/
structure GameServerDeployRequest where
  game_type : String
  server_name : String
  port : Int
  memory : String
  cpu_limit : Option String := none
  storage : Option String := none
  additional_settings : Option (List (String × JsonVal)) := none
  deriving Repr

/-- A raw JSON request body as received by FastAPI. -/
def RawBody := List (String × JsonVal)

/-- Required string field of a pydantic model: present and a string. -/
def getStrField (b : RawBody) (k : String) : Except String String :=
  match jsonLookup b k with
  | some (.str s) => .ok s
  | _ => .error ("field required or not a string: " ++ k)

/-- Required int field of a pydantic model: present and an integer.  The
`port` field of `GameServerDeployRequest` is declared simply `port: int`
with no range constraint, so ANY integer passes validation. -/
def getIntField (b : RawBody) (k : String) : Except String Int :=
  match jsonLookup b k with
  | some (.int n) => .ok n
  | _ => .error ("field required or not an integer: " ++ k)

/-- Optional string field with default `None`. -/
def getOptStrField (b : RawBody) (k : String) : Except String (Option String) :=
  match jsonLookup b k with
  | some (.str s) => .ok (some s)
  | some .null => .ok none
  | none => .ok none
  | _ => .error ("not a string: " ++ k)

/-- Optional dict field with default `None`. -/
def getOptDictField (b : RawBody) (k : String) :
    Except String (Option (List (String × JsonVal))) :=
  match jsonLookup b k with
  | some (.obj fields) => .ok (some fields)
  | some .null => .ok none
  | none => .ok none
  | _ => .error ("not an object: " ++ k)

/-- Pydantic validation of `GameServerDeployRequest`: presence and type
checks only, exactly as declared on lines 49-56.  There is no semantic
constraint on any field; in particular no port-range check. -/
def parseGameServerDeployRequest (b : RawBody) : Except String GameServerDeployRequest := do
  let game_type ← getStrField b "game_type"
  let server_name ← getStrField b "server_name"
  let port ← getIntField b "port"
  let memory ← getStrField b "memory"
  let cpu_limit ← getOptStrField b "cpu_limit"
  let storage ← getOptStrField b "storage"
  let additional_settings ← getOptDictField b "additional_settings"
  .ok { game_type := game_type, server_name := server_name, port := port,
        memory := memory, cpu_limit := cpu_limit, storage := storage,
        additional_settings := additional_settings }

/-- The `TaskResponse` model (lines 68-71). -/
structure TaskResponse where
  task_id : String
  status : String
  message : String
  deriving Repr

/-- `POST /game/deploy` (`deploy_game_server`, lines 318-341): FastAPI
validates the body against `GameServerDeployRequest`; on failure the
request is rejected and nothing below runs; on success the endpoint inserts
`{"status": "queued"}` under a fresh task id, schedules
`run_task(..., task_type="game_server_deploy", **request.dict())`, and
returns the `TaskResponse` immediately.  We return the updated store, the
response, and the scheduled background task's spec. -/
def deployGameServerEndpoint (st : Store) (freshId : String) (b : RawBody) :
    Except String (Store × TaskResponse × TaskSpec) :=
  match parseGameServerDeployRequest b with
  | .error e => .error e
  | .ok request =>
    .ok (storeSet st freshId newTaskRecord,
         { task_id := freshId, status := "queued",
           message := "Deploying " ++ request.game_type ++ " server '" ++
                      request.server_name ++ "'" },
         .game_server_deploy request.game_type request.server_name request.port
           request.memory request.cpu_limit request.storage
           request.additional_settings)

/-- The `TaskStatusResponse` model (lines 73-77). -/
structure TaskStatusResponse where
  task_id : String
  status : TaskStatus
  result : Option JsonVal := none
  error : Option String := none
  deriving Repr

/-- `GET /tasks/{task_id}` (`get_task_status`, lines 269-280): 404 when the
id is unknown, otherwise a snapshot of the record. -/
def get_task_status (st : Store) (task_id : String) : Except Nat TaskStatusResponse :=
  match storeGet st task_id with
  | none => .error 404
  | some task =>
    .ok { task_id := task_id, status := task.status,
          result := task.result, error := task.error }

/-! ## `notify_mcp` (api_server.py lines 235-253) -/

/-- The possible outcomes of the outbound `httpx` POST to the MCP server:
a 2xx response with a JSON body, a non-2xx response (so
`raise_for_status()` raises, carrying the status code), or any other
exception (timeout, connection refused, ...). -/
inductive NotifyOutcome where
  | respOk (body : JsonVal)
  | httpStatusError (code : Int)
  | requestError (msg : String)

/-- `str(e)` of the exception observed in `notify_mcp`'s handler. -/
def notifyExceptionMessage : NotifyOutcome → Option String
  | .respOk _ => none
  | .httpStatusError code => some ("HTTP status error: " ++ toString code)
  | .requestError msg => some msg

/-- `notify_mcp`: posts the notification; every exception is caught, logged,
and converted into a `{"success": False, "error": str(e)}` return value.
The function reads nothing from and writes nothing to `active_tasks`; we
thread the global store through to state that. -/
def notify_mcp (st : Store) (outcome : NotifyOutcome) : Store × JsonVal :=
  match outcome with
  | .respOk body => (st, body)
  | .httpStatusError code =>
    (st, .obj [("success", .bool false),
               ("error", .str ("HTTP status error: " ++ toString code))])
  | .requestError msg =>
    (st, .obj [("success", .bool false), ("error", .str msg)])

/-! ## API-key validation (api_server.py lines 119-125, utils/config.py) -/

/-- `Config.MCP_API_KEY = os.getenv("MCP_API_KEY", "")` (config.py line
25): the empty string when the variable is unset. -/
def defaultMcpApiKey : String := ""

/-- `validate_api_key` (lines 119-125):
`if not Config.MCP_API_KEY or x_api_key != Config.MCP_API_KEY: raise 401`.
`x_api_key` is the `X-API-Key` header, `none` when absent; the empty
configured key is falsy, so the first disjunct rejects every request. -/
def validate_api_key (configKey : String) (x_api_key : Option String) :
    Except Nat String :=
  if configKey = "" ∨ x_api_key ≠ some configKey then .error 401
  else .ok configKey

/-- The API routes of `api_server.py` and whether each is declared with
`dependencies=[Depends(validate_api_key)]`; only `/health` (lines 260-263)
is not. -/
inductive Route where
  | root
  | health
  | tasksList
  | taskStatus
  | llmGenerate
  | llmEmbed
  | gameDeploy
  | gameAction
  | infraAction
  | webhook
  deriving DecidableEq, Repr

/-- Which routes carry the `validate_api_key` dependency. -/
def requiresAuth : Route → Bool
  | .health => false
  | _ => true

/-- The authentication gate FastAPI runs before a route's handler: `401`
from `validate_api_key` when the route declares the dependency, otherwise
the handler is reached. -/
def routeAuth (configKey : String) (route : Route) (x_api_key : Option String) :
    Except Nat Unit :=
  if requiresAuth route then
    match validate_api_key configKey x_api_key with
    | .error code => .error code
    | .ok _ => .ok ()
  else .ok ()

/-! ## Helper lemmas -/

/-- Terminal statuses. -/
def isTerminal : TaskStatus → Bool
  | .completed => true
  | .failed => true
  | _ => false

/-- Rank of a status in the order `queued < running < {completed, failed}`. -/
def statusRank : TaskStatus → Nat
  | .queued => 0
  | .running => 1
  | .completed => 2
  | .failed => 2

theorem storeGet_storeSet_self (st : Store) (id : String) (r : TaskRecord) :
    storeGet (storeSet st id r) id = some r := by
  induction st with
  | nil => simp [storeSet, storeGet]
  | cons kv rest ih =>
    obtain ⟨k, v⟩ := kv
    by_cases h : k = id
    · simp [storeSet, storeGet, h]
    · simp [storeSet, storeGet, h, ih]

theorem statusTrace_eq (env : Env) (spec : TaskSpec) :
    statusTrace env spec = [.queued, .running, (finalRecord env spec).status] := by
  cases spec with
  | llm_generate prompt system =>
    cases h : env.llmInvoke (formatted_prompt system prompt) <;>
      simp [statusTrace, finalRecord, run_task, run_task_body, h, applyEvent,
        newTaskRecord]
  | game_server_deploy gt sn port mem cpu sto add =>
    cases h : deploy_game_server
        { game_type := gt, server_name := sn, port := port, memory := mem,
          cpu_limit := cpu, storage := sto, additional_settings := add } <;>
      simp [statusTrace, finalRecord, run_task, run_task_body, h, applyEvent,
        newTaskRecord]
  | game_server_action gt sn action =>
    by_cases h1 : action = "start"
    · simp [statusTrace, finalRecord, run_task, run_task_body, h1, applyEvent,
        newTaskRecord]
    · by_cases h2 : action = "stop"
      · simp [statusTrace, finalRecord, run_task, run_task_body, h1, h2,
          applyEvent, newTaskRecord]
      · by_cases h3 : action = "restart"
        · simp [statusTrace, finalRecord, run_task, run_task_body, h1, h2, h3,
            applyEvent, newTaskRecord]
        · by_cases h4 : action = "status"
          · simp [statusTrace, finalRecord, run_task, run_task_body, h1, h2,
              h3, h4, applyEvent, newTaskRecord]
          · simp [statusTrace, finalRecord, run_task, run_task_body, h1, h2,
              h3, h4, applyEvent, newTaskRecord]
  | infrastructure_action aty rty params =>
    simp [statusTrace, finalRecord, run_task, run_task_body, applyEvent,
      newTaskRecord]
  | unknownTask ty =>
    simp [statusTrace, finalRecord, run_task, run_task_body, applyEvent,
      newTaskRecord]

theorem finalRecord_shape (env : Env) (spec : TaskSpec) :
    (∃ v, finalRecord env spec =
      { status := .completed, result := some v, error := none })
    ∨ (∃ e, finalRecord env spec =
      { status := .failed, result := none, error := some e }) := by
  cases spec with
  | llm_generate prompt system =>
    cases h : env.llmInvoke (formatted_prompt system prompt) <;>
      simp [finalRecord, run_task, run_task_body, h, applyEvent, newTaskRecord]
  | game_server_deploy gt sn port mem cpu sto add =>
    cases h : deploy_game_server
        { game_type := gt, server_name := sn, port := port, memory := mem,
          cpu_limit := cpu, storage := sto, additional_settings := add } <;>
      simp [finalRecord, run_task, run_task_body, h, applyEvent, newTaskRecord]
  | game_server_action gt sn action =>
    by_cases h1 : action = "start"
    · simp [finalRecord, run_task, run_task_body, h1, applyEvent, newTaskRecord]
    · by_cases h2 : action = "stop"
      · simp [finalRecord, run_task, run_task_body, h1, h2, applyEvent,
          newTaskRecord]
      · by_cases h3 : action = "restart"
        · simp [finalRecord, run_task, run_task_body, h1, h2, h3, applyEvent,
            newTaskRecord]
        · by_cases h4 : action = "status"
          · simp [finalRecord, run_task, run_task_body, h1, h2, h3, h4,
              applyEvent, newTaskRecord]
          · simp [finalRecord, run_task, run_task_body, h1, h2, h3, h4,
              applyEvent, newTaskRecord]
  | infrastructure_action aty rty params =>
    simp [finalRecord, run_task, run_task_body, applyEvent, newTaskRecord]
  | unknownTask ty =>
    simp [finalRecord, run_task, run_task_body, applyEvent, newTaskRecord]

/-! ## Claim theorems -/

/-- C1: a task's status over its lifetime is exactly
`queued`, then `running`, then a single terminal status; the trace is
strictly increasing in the order `queued < running < {completed, failed}`,
and the terminal status is the last value ever written, so no operation
regresses the state or leaves a terminal state. -/
theorem task_state_monotonic (env : Env) (spec : TaskSpec) :
    statusTrace env spec = [.queued, .running, (finalRecord env spec).status]
    ∧ isTerminal (finalRecord env spec).status = true
    ∧ List.Chain' (fun a b => statusRank a < statusRank b)
        (statusTrace env spec) := by
  refine ⟨statusTrace_eq env spec, ?_, ?_⟩
  · rcases finalRecord_shape env spec with ⟨v, h⟩ | ⟨e, h⟩ <;>
      simp [h, isTerminal]
  · rw [statusTrace_eq env spec]
    rcases finalRecord_shape env spec with ⟨v, h⟩ | ⟨e, h⟩ <;>
      simp [h, statusRank]

/-- An environment whose LLM call succeeds (the deploy/action/infra branches
never consult it). -/
def mockEnv : Env := { llmInvoke := fun _ => .ok "ok" }

/-- A transient driver failure: the LLM call raises. -/
def transientError : String := "TransientError: connection timed out"

/-- An environment whose LLM call always raises a transient error. -/
def transientEnv : Env := { llmInvoke := fun _ => .error transientError }

/-- C2 counterexample: the store's only transition operation is the
unconditional dict write `active_tasks[task_id]["status"] = s`.  Two
pickup attempts that both expect `queued`: the first moves `t1` to
`running` and its run completes the task; the second attempt, applied
afterwards, does not fail with any ConflictError (the operation has no
failure outcome at all) and mutates the record, dragging it from
`completed` back to `running`.  This falsifies "at most one attempt
succeeds; each other attempt fails with ConflictError and leaves the task
record completely unchanged". -/
theorem transition_no_conflict_counterexample :
    storeGet (storeSetStatus (storeSetStatus (storeSetStatus
        [("t1", newTaskRecord)] "t1" .running) "t1" .completed) "t1" .running) "t1"
      = some { status := TaskStatus.running, result := none, error := none }
    ∧ TaskStatus.running ≠ TaskStatus.completed := by
  exact ⟨rfl, by decide⟩

/-- C2 amended: the code has no compare-and-transition primitive.  Its
status write succeeds unconditionally on every existing task — there is no
expected-state comparison, no ConflictError, and concurrent attempts all
mutate the record, last writer winning. -/
theorem transition_unconditional_write (st : Store) (id : String)
    (s : TaskStatus) (r : TaskRecord) (h : storeGet st id = some r) :
    storeSetStatus st id s = storeSet st id { r with status := s }
    ∧ storeGet (storeSetStatus st id s) id = some { r with status := s } := by
  constructor
  · unfold storeSetStatus
    rw [h]
  · unfold storeSetStatus
    rw [h]
    exact storeGet_storeSet_self st id { r with status := s }

/-- Witness for `transition_unconditional_write` at a concrete store. -/
theorem transition_unconditional_write_witness :
    storeSetStatus [("t1", newTaskRecord)] "t1" .running
      = storeSet [("t1", newTaskRecord)] "t1" { newTaskRecord with status := .running }
    ∧ storeGet (storeSetStatus [("t1", newTaskRecord)] "t1" .running) "t1"
      = some { newTaskRecord with status := .running } :=
  transition_unconditional_write [("t1", newTaskRecord)] "t1" .running
    newTaskRecord rfl

/-- The store component of a deploy-endpoint outcome, `none` when the
request was rejected by validation. -/
def endpointStore : Except String (Store × TaskResponse × TaskSpec) → Option Store
  | .ok (st, _, _) => some st
  | .error _ => none

/-- A deploy request body with the given port (all other fields valid). -/
def deployBodyWithPort (port : Int) : RawBody :=
  [("game_type", .str "minecraft"), ("server_name", .str "test1"),
   ("port", .int port), ("memory", .str "4G")]

/-- C3 counterexample: a deploy request with `port: 70000` is NOT rejected —
pydantic checks only that `port` is an integer — and a task IS created: the
endpoint returns success and the store gains a `queued` entry. -/
theorem port_70000_accepted_counterexample :
    endpointStore (deployGameServerEndpoint [] "task-1" (deployBodyWithPort 70000))
      = some [("task-1", newTaskRecord)]
    ∧ storeGet [("task-1", newTaskRecord)] "task-1" = some newTaskRecord := by
  exact ⟨rfl, rfl⟩

/-- C3 amended: validation of a deploy request checks field presence and
types only; every integer port — 70000 included — is accepted, and the
endpoint then creates a task in state `queued` under the fresh id. -/
theorem deploy_accepts_any_port (port : Int) (st : Store) (freshId : String) :
    deployGameServerEndpoint st freshId (deployBodyWithPort port)
      = .ok (storeSet st freshId newTaskRecord,
             { task_id := freshId, status := "queued",
               message := "Deploying minecraft server 'test1'" },
             .game_server_deploy "minecraft" "test1" port "4G" none none none)
    ∧ storeGet (storeSet st freshId newTaskRecord) freshId = some newTaskRecord := by
  exact ⟨rfl, storeGet_storeSet_self st freshId newTaskRecord⟩

/-- C4 counterexample: on a transient driver error the code performs exactly
ONE driver invocation — not the claimed retry-limit three — fails the task
immediately, and records no attempt counter (the task record has no such
field). -/
theorem no_retry_counterexample :
    (callTrace transientEnv (.llm_generate "deploy a server" none)).length = 1
    ∧ finalRecord transientEnv (.llm_generate "deploy a server" none)
      = { status := .failed, result := none, error := some transientError }
    ∧ (callTrace transientEnv (.llm_generate "deploy a server" none)).length ≠ 3 := by
  exact ⟨rfl, rfl, by decide⟩

/-- C4 amended: a task whose driver invocation raises fails immediately
after that single invocation, with the error recorded; there is no retry,
no backoff, and no attempt counter anywhere in the code. -/
theorem single_attempt_no_retry (env : Env) (prompt : String)
    (system : Option String) (msg : String)
    (h : env.llmInvoke (formatted_prompt system prompt) = .error msg) :
    finalRecord env (.llm_generate prompt system)
      = { status := .failed, result := none, error := some msg }
    ∧ callTrace env (.llm_generate prompt system)
      = [.llmChainInvoke (formatted_prompt system prompt)] := by
  constructor <;>
    simp [finalRecord, callTrace, run_task, run_task_body, h, applyEvent,
      newTaskRecord]

/-- Witness for `single_attempt_no_retry`. -/
theorem single_attempt_no_retry_witness :
    finalRecord transientEnv (.llm_generate "hello" none)
      = { status := .failed, result := none, error := some transientError }
    ∧ callTrace transientEnv (.llm_generate "hello" none)
      = [.llmChainInvoke (formatted_prompt none "hello")] :=
  single_attempt_no_retry transientEnv "hello" none transientError rfl

/-- A deploy task for an unsupported game type. -/
def doomSpec : TaskSpec :=
  .game_server_deploy "doom" "d1" 7777 "2G" none none none

/-- C5 counterexample: a driver error RETURNED as a value — the
unsupported-game-type dict from `deploy_game_server` — is not captured into
the `error` field: the task ends `completed`, the error dict lands in
`result`, and `error` stays empty, contradicting "the task ends in state
failed with the error field populated". -/
theorem returned_error_completes_counterexample :
    finalRecord mockEnv doomSpec
      = { status := .completed,
          result := some (.obj
            [("status", .str "error"),
             ("message", .str "Unsupported game type: doom")]),
          error := none }
    ∧ (finalRecord mockEnv doomSpec).status ≠ TaskStatus.failed := by
  have h1 : finalRecord mockEnv doomSpec
      = { status := .completed,
          result := some (.obj
            [("status", .str "error"),
             ("message", .str "Unsupported game type: doom")]),
          error := none } := rfl
  exact ⟨h1, by rw [h1]; decide⟩

/-- Exceptions escaping a `run_task` branch are turned into the `failed`
status with `error = str(e)` and no result. -/
theorem run_task_exn (env : Env) (spec : TaskSpec) (e : String)
    (h : (run_task_body env spec).2.2 = some e) :
    finalRecord env spec = { status := .failed, result := none, error := some e } := by
  cases spec with
  | llm_generate prompt system =>
    cases h2 : env.llmInvoke (formatted_prompt system prompt) with
    | ok val => simp [run_task_body, h2] at h
    | error msg =>
      simp [run_task_body, h2] at h
      subst h
      simp [finalRecord, run_task, run_task_body, h2, applyEvent, newTaskRecord]
  | game_server_deploy gt sn port mem cpu sto add =>
    cases h2 : deploy_game_server
        { game_type := gt, server_name := sn, port := port, memory := mem,
          cpu_limit := cpu, storage := sto, additional_settings := add } with
    | ok val => simp [run_task_body, h2] at h
    | error msg =>
      simp [run_task_body, h2] at h
      subst h
      simp [finalRecord, run_task, run_task_body, h2, applyEvent, newTaskRecord]
  | game_server_action gt sn action =>
    by_cases h1 : action = "start"
    · simp [run_task_body, h1] at h
      subst h
      simp [finalRecord, run_task, run_task_body, h1, applyEvent, newTaskRecord]
    · by_cases h2 : action = "stop"
      · simp [run_task_body, h1, h2] at h
        subst h
        simp [finalRecord, run_task, run_task_body, h1, h2, applyEvent,
          newTaskRecord]
      · by_cases h3 : action = "restart"
        · simp [run_task_body, h1, h2, h3] at h
          subst h
          simp [finalRecord, run_task, run_task_body, h1, h2, h3, applyEvent,
            newTaskRecord]
        · by_cases h4 : action = "status"
          · simp [run_task_body, h1, h2, h3, h4] at h
          · simp [run_task_body, h1, h2, h3, h4] at h
            subst h
            simp [finalRecord, run_task, run_task_body, h1, h2, h3, h4,
              applyEvent, newTaskRecord]
  | infrastructure_action aty rty params =>
    simp [run_task_body] at h
  | unknownTask ty =>
    simp [run_task_body] at h
    subst h
    simp [finalRecord, run_task, run_task_body, applyEvent, newTaskRecord]

/-- C5 amended: every task ends terminal with exactly one of
`result`/`error` populated (`result` iff `completed`, `error` iff
`failed`), and every RAISED driver error is captured into the `error` field
with state `failed`; but a driver error returned as a plain value (the
unsupported-game-type dict) completes the task with the error dict in
`result` (see the counterexample). -/
theorem errors_captured_and_exclusive (env : Env) (spec : TaskSpec) :
    (isTerminal (finalRecord env spec).status = true
     ∧ ((finalRecord env spec).status = .completed
        ↔ (finalRecord env spec).result.isSome = true)
     ∧ ((finalRecord env spec).status = .failed
        ↔ (finalRecord env spec).error.isSome = true))
    ∧ (∀ e, (run_task_body env spec).2.2 = some e →
        finalRecord env spec
          = { status := .failed, result := none, error := some e }) := by
  constructor
  · rcases finalRecord_shape env spec with ⟨v, h⟩ | ⟨e, h⟩ <;>
      simp [h, isTerminal]
  · intro e h
    exact run_task_exn env spec e h

/-- Witness for `errors_captured_and_exclusive`, discharging the inner
raised-error hypothesis at a concrete transient failure. -/
theorem errors_captured_and_exclusive_witness :
    finalRecord transientEnv (.llm_generate "x" none)
      = { status := .failed, result := none, error := some transientError } :=
  (errors_captured_and_exclusive transientEnv (.llm_generate "x" none)).2
    transientError rfl

/-- C6: `notify_mcp` swallows every outcome of the outbound call — success,
non-2xx status, timeout, unreachable observer — touching no task record:
the store is returned unchanged, every record reads back identically, and
the store after a failed notification equals the store after a successful
one. -/
theorem notify_never_mutates_tasks (st : Store) (o o2 : NotifyOutcome) :
    (notify_mcp st o).1 = st
    ∧ (∀ id, storeGet (notify_mcp st o).1 id = storeGet st id)
    ∧ (notify_mcp st o).1 = (notify_mcp st o2).1 := by
  cases o <;> cases o2 <;> simp [notify_mcp]

/-- C7: in the `restart` action the stop step comes first and is the only
driver attempt made: it fails (the `stop_game_server` method does not
exist), the task ends `failed` with that error recorded, and the start
(deploy) step is never invoked — the deploy call would only be reached
after a successful stop. -/
theorem restart_stop_first_no_start (env : Env) (gt sn : String) :
    callTrace env (.game_server_action gt sn "restart")
      = [.stopActionAttempt gt sn]
    ∧ finalRecord env (.game_server_action gt sn "restart")
      = { status := .failed, result := none,
          error := some stopActionAttributeError } := by
  exact ⟨rfl, rfl⟩

/-- Read a key out of a dict-shaped result, like Python `result[k]`. -/
def jsonGet (v : JsonVal) (k : String) : Option JsonVal :=
  match v with
  | .obj fields => jsonLookup fields k
  | _ => none

/-- The scenario task of C8: minecraft, `test1`, port 25565, memory 4G. -/
def testDeploySpec : TaskSpec :=
  .game_server_deploy "minecraft" "test1" 25565 "4G" none none none

/-- The driver result for the C8 scenario. -/
def testDeployResult : JsonVal :=
  deploy_minecraft_server
    { game_type := "minecraft", server_name := "test1", port := 25565,
      memory := "4G" }

/-- C8: submitting the valid minecraft/test1/25565/4G request returns the
fresh task id immediately with status "queued", creates the record in state
`queued`, and after the background `run_task` executes a status lookup
returns `completed` with a result whose `connection_info` names the
requested port 25565. -/
theorem deploy_scenario_completes (st : Store) (freshId : String) (env : Env) :
    deployGameServerEndpoint st freshId (deployBodyWithPort 25565)
      = .ok (storeSet st freshId newTaskRecord,
             { task_id := freshId, status := "queued",
               message := "Deploying minecraft server 'test1'" },
             testDeploySpec)
    ∧ storeGet (storeSet st freshId newTaskRecord) freshId = some newTaskRecord
    ∧ get_task_status
        (storeSet (storeSet st freshId newTaskRecord) freshId
          (finalRecord env testDeploySpec)) freshId
      = .ok { task_id := freshId, status := .completed,
              result := some testDeployResult, error := none }
    ∧ jsonGet testDeployResult "connection_info"
      = some (.str "Connect to your server at your-public-ip:25565") := by
  have hfin : finalRecord env testDeploySpec
      = { status := .completed, result := some testDeployResult, error := none } := rfl
  refine ⟨rfl, storeGet_storeSet_self st freshId newTaskRecord, ?_, rfl⟩
  simp [get_task_status, storeGet_storeSet_self, hfin]

/-- C9: every `start`, `stop` or `restart` action task fails — `start`
passes three positional arguments to the one-argument
`deploy_game_server`, and `stop`/`restart` call the nonexistent
`stop_game_server` — while a `status` action task completes with the stub
not-implemented result. -/
theorem action_tasks_outcomes (env : Env) (gt sn : String) :
    finalRecord env (.game_server_action gt sn "start")
      = { status := .failed, result := none,
          error := some deployActionTypeError }
    ∧ finalRecord env (.game_server_action gt sn "stop")
      = { status := .failed, result := none,
          error := some stopActionAttributeError }
    ∧ finalRecord env (.game_server_action gt sn "restart")
      = { status := .failed, result := none,
          error := some stopActionAttributeError }
    ∧ finalRecord env (.game_server_action gt sn "status")
      = { status := .completed, result := some statusStubResult,
          error := none } := by
  exact ⟨rfl, rfl, rfl, rfl⟩

/-- C10: with the default empty `MCP_API_KEY`, every route that declares
the auth dependency rejects with 401 whatever `X-API-Key` header is
supplied — the empty header value included — while `/health` answers
without authentication. -/
theorem empty_key_rejects_all (route : Route) (header : Option String)
    (h : requiresAuth route = true) :
    routeAuth defaultMcpApiKey route header = .error 401
    ∧ routeAuth defaultMcpApiKey .health header = .ok () := by
  constructor
  · simp [routeAuth, h, validate_api_key, defaultMcpApiKey]
  · simp [routeAuth, requiresAuth]

/-- Witness for `empty_key_rejects_all`: the root route with a header equal
to the (empty) configured key is still rejected; `/health` is served. -/
theorem empty_key_rejects_all_witness :
    routeAuth defaultMcpApiKey .root (some "") = .error 401
    ∧ routeAuth defaultMcpApiKey .health (some "") = .ok () :=
  empty_key_rejects_all .root (some "") rfl

end BoonerOllama
